import Mathlib

/-!
Verification of the docker-stackwait deployer against its specification.

Each Go package that the claims touch is shallowly embedded in its own
namespace:

* `StackWait.Plan`       — the diff planner (`plan` package: types.go and the
  `CreatePlan` / `planServices` / `compareServices` fragment).
* `StackWait.MainGo`     — the single-file deployer `main.go` (`buildSpec`,
  `replicas`, the service/network apply loops and `rollback`).
* `StackWait.Deployer`   — the `deployer` package (`StackDeployer`,
  `waitForServiceUpdate`, `waitForServicesRemoval`).
* `StackWait.SwarmState` — the state reader (`internal/swarm/state.go`).

Go maps are modelled as association lists (`List (key × value)`); Go `nil`
pointers as `Option`; Go byte strings as `String` (or `List Char` where the
source slices by index).  All definitions are executable.
-/

namespace StackWait

namespace Planning

/-- Embeds `ActionType` (internal/plan/types.go:10-17). -/
inductive ActionType
  | create
  | update
  | delete
  | none
deriving DecidableEq

/-- Embeds the fields of `swarm.ContainerSpec` read by the planner. -/
structure SwarmContainerSpec where
  image : String
deriving DecidableEq

/-- Embeds the fields of `swarm.ReplicatedService` read by the planner
(`Replicas *uint64`, hence an `Option Nat`). -/
structure SwarmReplicated where
  replicas : Option Nat
deriving DecidableEq

/-- Embeds `swarm.ServiceMode` as read by the planner (`Replicated` pointer). -/
structure SwarmServiceMode where
  replicated : Option SwarmReplicated
deriving DecidableEq

/-- Embeds the fields of `swarm.TaskSpec` read by the planner
(`ContainerSpec` pointer). -/
structure SwarmTaskSpec where
  containerSpec : Option SwarmContainerSpec
deriving DecidableEq

/-- Embeds the fields of `swarm.ServiceSpec` read by the planner. -/
structure SwarmServiceSpec where
  name : String
  taskTemplate : SwarmTaskSpec
  mode : SwarmServiceMode
deriving DecidableEq

/-- Embeds the fields of `swarm.Service` read by the planner (ID, Spec,
plus the `Meta.Version` token carried into `ServiceAction.CurrentMeta`). -/
structure SwarmService where
  id : String
  version : Nat
  spec : SwarmServiceSpec
deriving DecidableEq

/-- Embeds the fields of the compose `DeployConfig` read by
`compareServices` (`desired.Deploy.Replicas`). -/
structure DeployConfig where
  replicas : Nat
deriving DecidableEq

/-- Embeds the fields of the compose `Service` read by `compareServices`
(`Image`, `Deploy` pointer). -/
structure ComposeService where
  image : String
  deploy : Option DeployConfig
deriving DecidableEq

/-- Embeds the fields of the compose network / current network read by
`planNetworks`. -/
structure NetworkInfo where
  id : String
  driver : String
  labels : List (String × String)
deriving DecidableEq

/-- Embeds the volume shape read by `planVolumes`. -/
structure VolumeInfo where
  driver : String
  labels : List (String × String)
deriving DecidableEq

/-- Embeds the config/secret shape read by `planConfigs` / `planSecrets`
(an ID for current objects, labels and data for desired ones). -/
structure SensitiveInfo where
  id : String
  labels : List (String × String)
  data : List Nat
deriving DecidableEq

/-- Embeds `plan.CurrentState` (internal/plan/types.go:131-138); the Go maps
become association lists. -/
structure CurrentState where
  services : List (String × SwarmService)
  networks : List (String × NetworkInfo)
  volumes : List (String × VolumeInfo)
  configs : List (String × SensitiveInfo)
  secrets : List (String × SensitiveInfo)

/-- Embeds `plan.DesiredState` (internal/plan/types.go:140-147). -/
structure DesiredState where
  services : List (String × ComposeService)
  networks : List (String × NetworkInfo)
  volumes : List (String × VolumeInfo)
  configs : List (String × SensitiveInfo)
  secrets : List (String × SensitiveInfo)

/-- Embeds `plan.ServiceAction` (internal/plan/types.go:20-28). -/
structure ServiceAction where
  name : String
  action : ActionType
  serviceID : String
  currentSpec : Option SwarmServiceSpec
  changes : List String
deriving DecidableEq

/-- Embeds `plan.NetworkAction` (internal/plan/types.go:31-37). -/
structure NetworkAction where
  name : String
  action : ActionType
  networkID : String
  driver : String
  labels : List (String × String)
deriving DecidableEq

/-- Embeds `plan.VolumeAction` (internal/plan/types.go:40-46). -/
structure VolumeAction where
  name : String
  action : ActionType
  driver : String
  labels : List (String × String)
deriving DecidableEq

/-- Embeds `plan.ConfigAction` (internal/plan/types.go:58-64). -/
structure ConfigAction where
  name : String
  action : ActionType
  configID : String
  labels : List (String × String)
  data : List Nat
deriving DecidableEq

/-- Embeds `plan.SecretAction` (internal/plan/types.go:49-55). -/
structure SecretAction where
  name : String
  action : ActionType
  secretID : String
  labels : List (String × String)
  data : List Nat
deriving DecidableEq

/-- Embeds `plan.Plan` (internal/plan/types.go:67-85). -/
structure Plan where
  stackName : String
  networks : List NetworkAction
  volumes : List VolumeAction
  configs : List ConfigAction
  secrets : List SecretAction
  services : List ServiceAction
  orphanedServices : List String
  orphanedNetworks : List String
  orphanedVolumes : List String
  orphanedConfigs : List String
  orphanedSecrets : List String

/-- Embeds `Plan.IsEmpty` (internal/plan/types.go:88-129).  The Go function
keeps one `hasChanges` flag; each of the five loops sets it when it finds an
action different from `ActionNone` (the `break`s only short-circuit that
loop, the flag is never reset), so the flag equals the disjunction of the
five `any` scans. -/
def Plan.IsEmpty (p : Plan) : Bool :=
  let hasChanges := false
  let hasChanges := hasChanges || p.networks.any (fun net => net.action ≠ ActionType.none)
  let hasChanges := hasChanges || p.volumes.any (fun vol => vol.action ≠ ActionType.none)
  let hasChanges := hasChanges || p.configs.any (fun cfg => cfg.action ≠ ActionType.none)
  let hasChanges := hasChanges || p.secrets.any (fun sec => sec.action ≠ ActionType.none)
  let hasChanges := hasChanges || p.services.any (fun svc => svc.action ≠ ActionType.none)
  !hasChanges && p.orphanedServices.length == 0 &&
    p.orphanedNetworks.length == 0 && p.orphanedVolumes.length == 0 &&
    p.orphanedConfigs.length == 0 && p.orphanedSecrets.length == 0

/-- Embeds `compareServices` (plan fragment, lines 252-285).  The Go guard
`desired != nil` is always true here because desired services are modelled
by value (the planner only ever receives non-nil entries). -/
def compareServices (current : SwarmService) (desired : ComposeService) : List String :=
  let changes : List String := []
  let changes :=
    match current.spec.taskTemplate.containerSpec with
    | Option.some cs => if cs.image ≠ desired.image then changes ++ ["image"] else changes
    | Option.none => changes
  let changes :=
    match current.spec.mode.replicated with
    | Option.some rep =>
      match rep.replicas with
      | Option.some currentReplicas =>
        match desired.deploy with
        | Option.some dep =>
          if dep.replicas ≠ currentReplicas then changes ++ ["replicas"] else changes
        | Option.none => changes
      | Option.none => changes
    | Option.none => changes
  if changes = [] then changes ++ ["configuration"] else changes

/-- Embeds `planServices` (plan fragment, lines 207-249): upserts from the
desired map, then orphan deletes from the current map. -/
def planServices (current : CurrentState) (desired : DesiredState) : List ServiceAction :=
  let upserts := desired.services.map (fun p =>
    match current.services.lookup p.1 with
    | Option.some currentSvc =>
      let changes := compareServices currentSvc p.2
      let action := if changes.length > 0 then ActionType.update else ActionType.none
      { name := p.1, action := action, serviceID := currentSvc.id,
        currentSpec := Option.some currentSvc.spec, changes := changes }
    | Option.none =>
      { name := p.1, action := ActionType.create, serviceID := "",
        currentSpec := Option.none, changes := [] })
  let orphans := (current.services.filter
      (fun p => (desired.services.lookup p.1).isNone)).map
    (fun p => { name := p.1, action := ActionType.delete, serviceID := p.2.id,
                currentSpec := Option.none, changes := [] })
  upserts ++ orphans

/-- Embeds `planNetworks` (plan fragment, lines 48-86). -/
def planNetworks (current : CurrentState) (desired : DesiredState) : List NetworkAction :=
  let upserts := desired.networks.map (fun p =>
    match current.networks.lookup p.1 with
    | Option.some cur =>
      { name := p.1, action := ActionType.none, networkID := cur.id,
        driver := cur.driver, labels := cur.labels }
    | Option.none =>
      { name := p.1, action := ActionType.create, networkID := "",
        driver := p.2.driver, labels := p.2.labels })
  let orphans := (current.networks.filter
      (fun p => (desired.networks.lookup p.1).isNone)).map
    (fun p => { name := p.1, action := ActionType.delete, networkID := p.2.id,
                driver := "", labels := [] })
  upserts ++ orphans

/-- Embeds `planVolumes` (plan fragment, lines 89-124). -/
def planVolumes (current : CurrentState) (desired : DesiredState) : List VolumeAction :=
  let upserts := desired.volumes.map (fun p =>
    match current.volumes.lookup p.1 with
    | Option.some _ =>
      { name := p.1, action := ActionType.none, driver := p.2.driver, labels := p.2.labels }
    | Option.none =>
      { name := p.1, action := ActionType.create, driver := p.2.driver, labels := p.2.labels })
  let orphans := (current.volumes.filter
      (fun p => (desired.volumes.lookup p.1).isNone)).map
    (fun p => { name := p.1, action := ActionType.delete, driver := "", labels := [] })
  upserts ++ orphans

/-- Embeds `planConfigs` (plan fragment, lines 127-164). -/
def planConfigs (current : CurrentState) (desired : DesiredState) : List ConfigAction :=
  let upserts := desired.configs.map (fun p =>
    match current.configs.lookup p.1 with
    | Option.some cur =>
      { name := p.1, action := ActionType.none, configID := cur.id,
        labels := cur.labels, data := [] }
    | Option.none =>
      { name := p.1, action := ActionType.create, configID := "",
        labels := p.2.labels, data := p.2.data })
  let orphans := (current.configs.filter
      (fun p => (desired.configs.lookup p.1).isNone)).map
    (fun p => { name := p.1, action := ActionType.delete, configID := p.2.id,
                labels := [], data := [] })
  upserts ++ orphans

/-- Embeds `planSecrets` (plan fragment, lines 167-204). -/
def planSecrets (current : CurrentState) (desired : DesiredState) : List SecretAction :=
  let upserts := desired.secrets.map (fun p =>
    match current.secrets.lookup p.1 with
    | Option.some cur =>
      { name := p.1, action := ActionType.none, secretID := cur.id,
        labels := cur.labels, data := [] }
    | Option.none =>
      { name := p.1, action := ActionType.create, secretID := "",
        labels := p.2.labels, data := p.2.data })
  let orphans := (current.secrets.filter
      (fun p => (desired.secrets.lookup p.1).isNone)).map
    (fun p => { name := p.1, action := ActionType.delete, secretID := p.2.id,
                labels := [], data := [] })
  upserts ++ orphans

/-- Embeds `Planner.CreatePlan` (plan fragment, lines 24-45). -/
def CreatePlan (stackName : String) (current : CurrentState) (desired : DesiredState) : Plan :=
  { stackName := stackName,
    networks := planNetworks current desired,
    volumes := planVolumes current desired,
    configs := planConfigs current desired,
    secrets := planSecrets current desired,
    services := planServices current desired,
    orphanedServices := [], orphanedNetworks := [], orphanedVolumes := [],
    orphanedConfigs := [], orphanedSecrets := [] }

/-- Helper: association-list lookup succeeds exactly when the key has an
entry. -/
theorem lookup_isSome_exists {α : Type} (l : List (String × α)) (k : String) :
    (l.lookup k).isSome = true ↔ ∃ v, (k, v) ∈ l := by
  induction l with
  | nil => simp [List.lookup]
  | cons p t ih =>
    obtain ⟨a, b⟩ := p
    by_cases h : k = a
    · subst h
      simp [List.lookup]
    · have hb : (k == a) = false := by simp [h]
      simp [List.lookup, hb, ih, List.mem_cons, Prod.mk.injEq, h]

/-- Helper: the trailing conservative `if` of `compareServices` never
returns an empty list. -/
theorem ite_append_config_ne_nil (c : List String) :
    (if c = [] then c ++ ["configuration"] else c) ≠ [] := by
  split
  · simp
  · assumption

/-- Helper: `compareServices` always reports at least one change (the
source appends `"configuration"` when nothing else differs). -/
theorem compareServices_ne_nil (current : SwarmService) (desired : ComposeService) :
    compareServices current desired ≠ [] := by
  unfold compareServices
  exact ite_append_config_ne_nil _

/-- C1 (amended): for every service present in both the current and desired
state, the planner's emitted action has verb `update` — never `none` — even
when the current spec equals the desired spec, because `compareServices`
always returns a non-empty change list. -/
theorem planServices_matched_always_update (current : CurrentState) (desired : DesiredState)
    (name : String)
    (hc : (current.services.lookup name).isSome = true)
    (hd : (desired.services.lookup name).isSome = true) :
    (∃ a, a ∈ planServices current desired ∧ a.name = name ∧ a.action = ActionType.update) ∧
    (∀ a ∈ planServices current desired, a.name = name → a.action = ActionType.update) := by
  have hall : ∀ a ∈ planServices current desired, a.name = name →
      a.action = ActionType.update := by
    intro a ha hname
    simp only [planServices, List.mem_append] at ha
    rcases ha with ha | ha
    · obtain ⟨p, hp, rfl⟩ := List.mem_map.mp ha
      cases hlk : current.services.lookup p.1 with
      | none =>
        exfalso
        rw [hlk] at hname
        simp at hname
        rw [hname] at hlk
        rw [hlk] at hc
        simp at hc
      | some csvc =>
        have hlen : (compareServices csvc p.2).length > 0 := by
          have hne := compareServices_ne_nil csvc p.2
          cases h : compareServices csvc p.2 with
          | nil => exact absurd h hne
          | cons x xs => simp [h]
        simp [hlen]
    · exfalso
      obtain ⟨p, hp, rfl⟩ := List.mem_map.mp ha
      simp at hname
      obtain ⟨-, hnone⟩ := List.mem_filter.mp hp
      rw [hname] at hnone
      rw [Option.isNone_iff_eq_none] at hnone
      rw [hnone] at hd
      simp at hd
  refine ⟨?_, hall⟩
  obtain ⟨v, hv⟩ := (lookup_isSome_exists _ _).mp hd
  cases hlk : current.services.lookup name with
  | none =>
    rw [hlk] at hc
    simp at hc
  | some csvc =>
    have hlen : (compareServices csvc v).length > 0 := by
      have hne := compareServices_ne_nil csvc v
      cases h : compareServices csvc v with
      | nil => exact absurd h hne
      | cons x xs => simp [h]
    have hmem : ({ name := name,
                   action := if (compareServices csvc v).length > 0 then ActionType.update
                             else ActionType.none,
                   serviceID := csvc.id, currentSpec := Option.some csvc.spec,
                   changes := compareServices csvc v } : ServiceAction) ∈
        planServices current desired := by
      simp only [planServices, List.mem_append]
      left
      exact List.mem_map.mpr ⟨(name, v), hv, by simp [hlk]⟩
    exact ⟨_, hmem, rfl, by simp [hlen]⟩

/-- Concrete current-state service for the C1 counterexample: image and
replica count agree exactly with the desired service below. -/
def c1CurrentService : SwarmService :=
  { id := "sid-web", version := 7,
    spec := { name := "demo_web",
              taskTemplate := { containerSpec := Option.some { image := "nginx:1.25" } },
              mode := { replicated := Option.some { replicas := Option.some 2 } } } }

/-- Concrete desired service for the C1 counterexample. -/
def c1DesiredService : ComposeService :=
  { image := "nginx:1.25", deploy := Option.some { replicas := 2 } }

/-- Concrete current state for the C1 counterexample. -/
def c1Current : CurrentState :=
  { services := [("web", c1CurrentService)], networks := [], volumes := [],
    configs := [], secrets := [] }

/-- Concrete desired state for the C1 counterexample. -/
def c1Desired : DesiredState :=
  { services := [("web", c1DesiredService)], networks := [], volumes := [],
    configs := [], secrets := [] }

/-- C1 counterexample: a service present in both states whose current spec
equals the desired spec in every field the planner compares (image and
replica count), yet the planner's action has verb `update`, not `none` —
`compareServices` reports the conservative `"configuration"` change.  Hence
re-running the planner on the state obtained by applying its own plan again
yields an `update` action: the planner is not idempotent. -/
theorem planServices_equal_spec_yields_update :
    c1CurrentService.spec.taskTemplate.containerSpec =
      Option.some { image := c1DesiredService.image } ∧
    (c1CurrentService.spec.mode.replicated.map SwarmReplicated.replicas) =
      Option.some (c1DesiredService.deploy.map DeployConfig.replicas) ∧
    compareServices c1CurrentService c1DesiredService = ["configuration"] ∧
    (planServices c1Current c1Desired).map (fun a => (a.name, a.action)) =
      [("web", ActionType.update)] := by
  refine ⟨rfl, rfl, by decide, by decide⟩

/-- C1 witness: the amended theorem applied to the concrete pair of states
above. -/
theorem planServices_matched_always_update_witness :
    (∃ a, a ∈ planServices c1Current c1Desired ∧ a.name = "web" ∧
       a.action = ActionType.update) ∧
    (∀ a ∈ planServices c1Current c1Desired, a.name = "web" →
       a.action = ActionType.update) :=
  planServices_matched_always_update c1Current c1Desired "web" (by decide) (by decide)

/-- C9: `Plan.IsEmpty` returns true exactly when every action in the
Networks, Volumes, Configs, Secrets and Services sequences has verb `none`
and all five orphan lists are empty. -/
theorem isEmpty_iff_no_changes (p : Plan) :
    p.IsEmpty = true ↔
      ((∀ a ∈ p.networks, a.action = ActionType.none) ∧
       (∀ a ∈ p.volumes, a.action = ActionType.none) ∧
       (∀ a ∈ p.configs, a.action = ActionType.none) ∧
       (∀ a ∈ p.secrets, a.action = ActionType.none) ∧
       (∀ a ∈ p.services, a.action = ActionType.none) ∧
       p.orphanedServices = [] ∧ p.orphanedNetworks = [] ∧
       p.orphanedVolumes = [] ∧ p.orphanedConfigs = [] ∧
       p.orphanedSecrets = []) := by
  simp [Plan.IsEmpty, List.any_eq_true, List.length_eq_zero, not_or, and_assoc]

/-- C9 witness: `isEmpty_iff_no_changes` evaluated on a concrete plan with
only `none` actions and empty orphan lists. -/
theorem isEmpty_iff_no_changes_witness :
    (Plan.IsEmpty
      { stackName := "demo",
        networks := [{ name := "default", action := ActionType.none, networkID := "n1",
                       driver := "overlay", labels := [] }],
        volumes := [], configs := [], secrets := [],
        services := [{ name := "web", action := ActionType.none, serviceID := "s1",
                       currentSpec := Option.none, changes := [] }],
        orphanedServices := [], orphanedNetworks := [], orphanedVolumes := [],
        orphanedConfigs := [], orphanedSecrets := [] }) = true :=
  (isEmpty_iff_no_changes _).mpr (by decide)

end Planning

namespace MainGo

/-- Embeds `DeployConfig` of main.go (`Replicas *uint64`). -/
structure DeployConfig where
  replicas : Option Nat
deriving DecidableEq

/-- Embeds a parsed port entry as carried into `swarm.PortConfig`
(main.go `parsePorts` output; the textual forms accepted by `parsePorts`
are outside every claim, so entries are modelled post-parse). -/
structure PortConfig where
  protocol : String
  publishedPort : Nat
  targetPort : Nat
deriving DecidableEq

/-- Embeds `ComposeService` of main.go (image, command, environment,
deploy, ports, networks). -/
structure ComposeService where
  image : String
  command : List String
  environment : List (String × String)
  deploy : Option DeployConfig
  ports : List PortConfig
  networks : List String
deriving DecidableEq

/-- Embeds `ComposeNetwork` of main.go. -/
structure ComposeNetwork where
  driver : String
deriving DecidableEq

/-- Embeds `swarm.Annotations` as set by `buildSpec`. -/
structure Annotations where
  name : String
  labels : List (String × String)
deriving DecidableEq

/-- Embeds `swarm.ContainerSpec` as set by `buildSpec`. -/
structure ContainerSpec where
  image : String
  env : List String
  command : List String
deriving DecidableEq

/-- Embeds `swarm.NetworkAttachmentConfig`. -/
structure NetworkAttachmentConfig where
  target : String
deriving DecidableEq

/-- Embeds `swarm.TaskSpec` as set by `buildSpec`. -/
structure TaskSpec where
  containerSpec : ContainerSpec
  networks : List NetworkAttachmentConfig
deriving DecidableEq

/-- Embeds `swarm.ReplicatedService`; `buildSpec` always sets `Replicas`
through `replicas`, which never returns nil, so the field is a plain Nat
(uint64 in Go, hence non-negative by construction). -/
structure ReplicatedService where
  replicas : Nat
deriving DecidableEq

/-- Embeds `swarm.ServiceMode` as set by `buildSpec` (always replicated). -/
structure ServiceMode where
  replicated : ReplicatedService
deriving DecidableEq

/-- Embeds `swarm.EndpointSpec` as set by `buildSpec` (VIP mode). -/
structure EndpointSpec where
  ports : List PortConfig
deriving DecidableEq

/-- Embeds `swarm.ServiceSpec` as built by main.go. -/
structure ServiceSpec where
  annotations : Annotations
  taskTemplate : TaskSpec
  mode : ServiceMode
  endpointSpec : Option EndpointSpec
deriving DecidableEq

/-- Embeds the `fmt.Sprintf("%s_%s", stack, name)` naming used for both
services (main.go:117) and networks (main.go:98). -/
def stackQualifiedName (stack localName : String) : String :=
  stack ++ "_" ++ localName

/-- Embeds `replicas` (main.go:192-198). -/
def replicas (d : Option DeployConfig) : Nat :=
  match d with
  | Option.some dc =>
    match dc.replicas with
    | Option.some r => r
    | Option.none => 1
  | Option.none => 1

/-- Embeds `toEnvList` (main.go:200-206). -/
def toEnvList (m : List (String × String)) : List String :=
  m.map (fun p => p.1 ++ "=" ++ p.2)

/-- Embeds `buildSpec` (main.go:154-190). -/
def buildSpec (stack name : String) (svc : ComposeService) : ServiceSpec :=
  { annotations := { name := name,
                     labels := [("com.docker.stack.namespace", stack)] },
    taskTemplate := { containerSpec := { image := svc.image,
                                         env := toEnvList svc.environment,
                                         command := svc.command },
                      networks := if svc.networks.length > 0 then
                          svc.networks.map (fun n =>
                            { target := stackQualifiedName stack n })
                        else [] },
    mode := { replicated := { replicas := replicas svc.deploy } },
    endpointSpec := if svc.ports.length > 0 then
        Option.some { ports := svc.ports }
      else Option.none }

/-- Embeds the spec submitted for a compose service by the apply loop
(main.go:116-118): the cluster name is the stack-qualified local name. -/
def deployedServiceSpec (stack localName : String) (svc : ComposeService) : ServiceSpec :=
  buildSpec stack (stackQualifiedName stack localName) svc

/-- Embeds the `NetworkCreate` request issued by the network loop
(main.go:97-113) when `NetworkInspect` reports the network missing. -/
structure NetworkCreateRequest where
  name : String
  driver : String
  attachable : Bool
  labels : List (String × String)
deriving DecidableEq

/-- Embeds the network-creation call of main.go:98-108. -/
def networkCreateRequest (stack localName : String) (cfg : ComposeNetwork) : NetworkCreateRequest :=
  { name := stackQualifiedName stack localName,
    driver := cfg.driver,
    attachable := true,
    labels := [("com.docker.stack.namespace", stack)] }

/-- C7: every object main.go creates — each service spec built by the apply
loop and each network created by it — carries the label
`com.docker.stack.namespace = stack` and is named `stack ++ "_" ++ local`. -/
theorem created_objects_labelled_and_named (stack localS localN : String)
    (svc : ComposeService) (cfg : ComposeNetwork) :
    (deployedServiceSpec stack localS svc).annotations.labels.lookup
        "com.docker.stack.namespace" = Option.some stack ∧
    (deployedServiceSpec stack localS svc).annotations.name = stack ++ "_" ++ localS ∧
    (networkCreateRequest stack localN cfg).labels.lookup
        "com.docker.stack.namespace" = Option.some stack ∧
    (networkCreateRequest stack localN cfg).name = stack ++ "_" ++ localN := by
  refine ⟨rfl, rfl, rfl, rfl⟩

/-- C8: a missing deploy section or a missing replica count yields one
replica in the built spec; an explicit replica count is carried through
exactly (the count is a `Nat`, hence a non-negative integer). -/
theorem buildSpec_replica_count (stack name : String) (svc : ComposeService) :
    ((svc.deploy = Option.none ∨
        (∃ dc, svc.deploy = Option.some dc ∧ dc.replicas = Option.none)) →
      (buildSpec stack name svc).mode.replicated.replicas = 1) ∧
    (∀ dc n, svc.deploy = Option.some dc → dc.replicas = Option.some n →
      (buildSpec stack name svc).mode.replicated.replicas = n) := by
  constructor
  · rintro (h | ⟨dc, hdc, hrep⟩) <;> simp [buildSpec, replicas, *]
  · intro dc n hdc hrep
    simp [buildSpec, replicas, hdc, hrep]

/-- Concrete compose service without a deploy section (C8 witness data). -/
def c8NoDeploy : ComposeService :=
  { image := "nginx:1.25", command := [], environment := [],
    deploy := Option.none, ports := [], networks := [] }

/-- Concrete compose service with five replicas (C8 witness data). -/
def c8FiveReplicas : ComposeService :=
  { image := "nginx:1.25", command := [], environment := [],
    deploy := Option.some { replicas := Option.some 5 }, ports := [], networks := [] }

/-- C8 witness: `buildSpec_replica_count` applied at a service without a
deploy section and at one with five replicas. -/
theorem buildSpec_replica_count_witness :
    (buildSpec "demo" "demo_a" c8NoDeploy).mode.replicated.replicas = 1 ∧
    (buildSpec "demo" "demo_b" c8FiveReplicas).mode.replicated.replicas = 5 :=
  ⟨(buildSpec_replica_count "demo" "demo_a" c8NoDeploy).1 (Or.inl rfl),
   (buildSpec_replica_count "demo" "demo_b" c8FiveReplicas).2
     { replicas := Option.some 5 } 5 rfl rfl⟩

/-- Embeds the fields of `swarm.Service` that main.go reads from
`ServiceInspectWithRaw`: ID, Version and Spec. -/
structure SwarmService where
  id : String
  version : Nat
  spec : ServiceSpec
deriving DecidableEq

/-- Embeds the image overwrite of main.go:218
(`existing.Spec.TaskTemplate.ContainerSpec.Image = img`). -/
def setSpecImage (s : ServiceSpec) (img : String) : ServiceSpec :=
  { s with taskTemplate :=
      { s.taskTemplate with containerSpec :=
          { s.taskTemplate.containerSpec with image := img } } }

/-- The cluster calls a rollback can issue.  main.go's `rollback` only ever
issues `ServiceUpdate`; the `remove` constructor exists so that the
claimed removal of newly created services is statable. -/
inductive RollbackCall
  | update (serviceID : String) (version : Nat) (spec : ServiceSpec)
  | remove (serviceID : String)
deriving DecidableEq

/-- Embeds `rollback` (main.go:209-224).  For each recorded pair
(service name, previous image): re-inspect the service by name; if the
inspect fails, log and continue (no call); otherwise submit a
`ServiceUpdate` with the freshly inspected current spec whose image field
is reset to the recorded previous image, authorised by the freshly
inspected current version.  Go map iteration is modelled by list order;
`cluster` is the cluster content at rollback time, keyed by service name
as `ServiceInspectWithRaw` resolves it. -/
def rollback (cluster : List (String × SwarmService))
    (old : List (String × String)) : List RollbackCall :=
  old.foldr (fun p acc =>
    match cluster.lookup p.1 with
    | Option.some existing =>
      RollbackCall.update existing.id existing.version
        (setSpecImage existing.spec p.2) :: acc
    | Option.none => acc) []

/-- Embeds the recording of `prevImages` by the apply loop
(main.go:116-138): a service is recorded — keyed by its full cluster name,
with its pre-apply image — only when its inspect succeeds, i.e. only in the
update branch; services that are created get no entry. -/
def recordPrevImages (cluster : List (String × SwarmService)) (stack : String)
    (services : List (String × ComposeService)) : List (String × String) :=
  services.foldr (fun p acc =>
    match cluster.lookup (stackQualifiedName stack p.1) with
    | Option.some existing =>
      (stackQualifiedName stack p.1,
       existing.spec.taskTemplate.containerSpec.image) :: acc
    | Option.none => acc) []

/-- C3 (amended): every call main.go's rollback issues is a `ServiceUpdate`
— never a remove — built from the freshly inspected current service: it
carries the current (post-apply) version token and the current spec with
only the image reset to the recorded previous image; and every `prevImages`
entry stems from a service that already existed before the apply, so newly
created services are never recorded and are left in place. -/
theorem rollback_calls_characterised (cluster : List (String × SwarmService))
    (old : List (String × String)) :
    (∀ c ∈ rollback cluster old, ∃ svc img existing,
        (svc, img) ∈ old ∧ cluster.lookup svc = Option.some existing ∧
        c = RollbackCall.update existing.id existing.version
              (setSpecImage existing.spec img)) ∧
    (∀ (stack : String) (services : List (String × ComposeService)),
      ∀ e ∈ recordPrevImages cluster stack services,
        ∃ existing, cluster.lookup e.1 = Option.some existing ∧
          e.2 = existing.spec.taskTemplate.containerSpec.image) := by
  constructor
  · induction old with
    | nil => simp [rollback]
    | cons p rest ih =>
      intro c hc
      simp only [rollback, List.foldr_cons] at hc
      cases hlk : cluster.lookup p.1 with
      | none =>
        rw [hlk] at hc
        obtain ⟨svc, img, ex, hmem, hl, hceq⟩ := ih c hc
        exact ⟨svc, img, ex, List.mem_cons_of_mem _ hmem, hl, hceq⟩
      | some existing =>
        rw [hlk] at hc
        rcases List.mem_cons.mp hc with hceq | hc
        · exact ⟨p.1, p.2, existing, List.mem_cons_self _ _, hlk, hceq⟩
        · obtain ⟨svc, img, ex, hmem, hl, hceq⟩ := ih c hc
          exact ⟨svc, img, ex, List.mem_cons_of_mem _ hmem, hl, hceq⟩
  · intro stack services
    induction services with
    | nil => simp [recordPrevImages]
    | cons p rest ih =>
      intro e he
      simp only [recordPrevImages, List.foldr_cons] at he
      cases hlk : cluster.lookup (stackQualifiedName stack p.1) with
      | none =>
        rw [hlk] at he
        exact ih e he
      | some existing =>
        rw [hlk] at he
        rcases List.mem_cons.mp he with heq | he
        · subst heq
          exact ⟨existing, hlk, rfl⟩
        · exact ih e he

/-- Pre-apply compose content of service `web` for the C3 counterexample. -/
def c3WebV1 : ComposeService :=
  { image := "nginx:1.25", command := [], environment := [("MODE", "old")],
    deploy := Option.none, ports := [], networks := [] }

/-- Post-apply compose content of service `web`: new image and new
environment. -/
def c3WebV2 : ComposeService :=
  { image := "nginx:1.26", command := [], environment := [("MODE", "new")],
    deploy := Option.none, ports := [], networks := [] }

/-- Compose content of service `db`, newly created by this apply. -/
def c3Db : ComposeService :=
  { image := "postgres:16", command := [], environment := [],
    deploy := Option.none, ports := [], networks := [] }

/-- The pre-apply spec of `st_web`. -/
def c3PreSpec : ServiceSpec := deployedServiceSpec "st" "web" c3WebV1

/-- Cluster content before the apply: only `st_web` exists, at version 5. -/
def c3PreCluster : List (String × SwarmService) :=
  [("st_web", { id := "wid", version := 5, spec := c3PreSpec })]

/-- The compose file applied: `web` changed, `db` new. -/
def c3ComposeServices : List (String × ComposeService) :=
  [("web", c3WebV2), ("db", c3Db)]

/-- Cluster content at rollback time: `st_web` updated (version moved to
6, new spec), `st_db` created by this apply. -/
def c3PostCluster : List (String × SwarmService) :=
  [("st_web", { id := "wid", version := 6, spec := deployedServiceSpec "st" "web" c3WebV2 }),
   ("st_db", { id := "did", version := 1, spec := deployedServiceSpec "st" "db" c3Db })]

/-- C3 counterexample: after an apply that updated `st_web` (whose
environment also changed) and created `st_db`, the rollback issues a single
update for `st_web` that carries the *current* spec with only the image
reset — not the previous spec (the environment stays new) — authorised by
the *current* version token 6, not the previous token 5; and no call at all
is issued for the newly created `st_db`, which the claim says must be
removed. -/
theorem rollback_not_restoring_previous :
    recordPrevImages c3PreCluster "st" c3ComposeServices = [("st_web", "nginx:1.25")] ∧
    c3PreCluster.lookup "st_web" =
      Option.some { id := "wid", version := 5, spec := c3PreSpec } ∧
    rollback c3PostCluster [("st_web", "nginx:1.25")] =
      [RollbackCall.update "wid" 6
        (setSpecImage (deployedServiceSpec "st" "web" c3WebV2) "nginx:1.25")] ∧
    setSpecImage (deployedServiceSpec "st" "web" c3WebV2) "nginx:1.25" ≠ c3PreSpec := by
  refine ⟨by decide, by decide, by decide, by decide⟩

/-- C3 witness: `rollback_calls_characterised` applied to the concrete
post-apply cluster and recorded images above. -/
theorem rollback_calls_characterised_witness :
    (∃ svc img existing,
        (svc, img) ∈ [("st_web", "nginx:1.25")] ∧
        c3PostCluster.lookup svc = Option.some existing ∧
        RollbackCall.update "wid" 6
            (setSpecImage (deployedServiceSpec "st" "web" c3WebV2) "nginx:1.25") =
          RollbackCall.update existing.id existing.version
            (setSpecImage existing.spec img)) ∧
    (∃ existing,
        c3PostCluster.lookup "st_web" = Option.some existing ∧
        "nginx:1.26" = existing.spec.taskTemplate.containerSpec.image) :=
  ⟨(rollback_calls_characterised c3PostCluster [("st_web", "nginx:1.25")]).1
      (RollbackCall.update "wid" 6
        (setSpecImage (deployedServiceSpec "st" "web" c3WebV2) "nginx:1.25"))
      (by decide),
   (rollback_calls_characterised c3PostCluster []).2 "st" c3ComposeServices
      ("st_web", "nginx:1.26") (by decide)⟩

end MainGo

namespace Deployer

/-- Embeds `swarm.TaskState` (the engine's task-state enumeration used by
`waitForServiceUpdate`). -/
inductive TaskState
  | new
  | pending
  | assigned
  | accepted
  | preparing
  | starting
  | running
  | complete
  | shutdown
  | failed
  | rejected
deriving DecidableEq

/-- Embeds the fields of `swarm.ContainerStatus` read by the wait loop. -/
structure ContainerStatus where
  containerID : String
  exitCode : Int
deriving DecidableEq

/-- Embeds the fields of `swarm.TaskStatus` read by the wait loop. -/
structure TaskStatus where
  state : TaskState
  err : String
  containerStatus : ContainerStatus
deriving DecidableEq

/-- Embeds the fields of `swarm.Task` read by the wait loop. -/
structure Task where
  id : String
  desiredState : TaskState
  status : TaskStatus
deriving DecidableEq

/-- Embeds `StackDeployer` (deployer/stack.go:11-15); the Docker client
handle is an I/O resource and carries no state the claims touch. -/
structure StackDeployer where
  stackName : String
  maxFailedTaskCount : Int
deriving DecidableEq

/-- Embeds `NewStackDeployer` (deployer/stack.go:17-26). -/
def NewStackDeployer (stackName : String) (maxFailedTaskCount : Int) : StackDeployer :=
  { stackName := stackName,
    maxFailedTaskCount :=
      if maxFailedTaskCount ≤ 0 then 3 else maxFailedTaskCount }

/-- Embeds the `isFailed` classification of `waitForServiceUpdate`
(part_001:351-354): failed or rejected state; shutdown with a non-empty
error; or complete while the desired state is shutdown. -/
def isFailed (t : Task) : Bool :=
  t.status.state == TaskState.failed || t.status.state == TaskState.rejected ||
    (t.status.state == TaskState.shutdown && t.status.err != "") ||
    (t.status.state == TaskState.complete && t.desiredState == TaskState.shutdown)

/-- The mutable failed-task bookkeeping of `waitForServiceUpdate`
(part_001:297-298): the `seenFailedTasks` set (modelled as a list) and the
`newFailedTaskCount` counter.  Both persist across polls of one wait. -/
structure FailedScan where
  seenFailedTasks : List String
  newFailedTaskCount : Nat
deriving DecidableEq

/-- Embeds one iteration of the failed-task loop of `waitForServiceUpdate`
(part_001:342-379), without the budget check: old tasks are skipped; a
failed new task is recorded and counted only if its id was not seen
before. -/
def scanFailedTask (oldTaskIDs : List String) (s : FailedScan) (t : Task) : FailedScan :=
  if oldTaskIDs.contains t.id then s
  else if isFailed t then
    if s.seenFailedTasks.contains t.id then s
    else { seenFailedTasks := t.id :: s.seenFailedTasks,
           newFailedTaskCount := s.newFailedTaskCount + 1 }
  else s

/-- The failed-task loop over the tasks of one poll. -/
def scanFailedTasks (oldTaskIDs : List String) (s : FailedScan)
    (tasks : List Task) : FailedScan :=
  tasks.foldl (scanFailedTask oldTaskIDs) s

/-- Embeds the failure message of part_001:382. -/
def updateFailedMessage (n : Nat) : String :=
  s!"service update failed: {n} new tasks failed (healthcheck or startup failures)"

/-- Embeds one iteration of the failed-task loop *with* the budget check of
part_001:381-383: after recording a failed new task, if the counter has
reached `MaxFailedTaskCount` the wait returns the failure error. -/
def checkFailedTask (maxFailed : Int) (oldTaskIDs : List String)
    (s : FailedScan) (t : Task) : Except String FailedScan :=
  if oldTaskIDs.contains t.id then Except.ok s
  else if isFailed t then
    let s1 :=
      if s.seenFailedTasks.contains t.id then s
      else { seenFailedTasks := t.id :: s.seenFailedTasks,
             newFailedTaskCount := s.newFailedTaskCount + 1 }
    if (s1.newFailedTaskCount : Int) ≥ maxFailed then
      Except.error (updateFailedMessage s1.newFailedTaskCount)
    else Except.ok s1
  else Except.ok s

/-- The failed-task loop with budget check over the tasks of one poll; an
`Except.error` models the early `return fmt.Errorf(...)`. -/
def checkFailedTasks (maxFailed : Int) (oldTaskIDs : List String)
    (s : FailedScan) (tasks : List Task) : Except String FailedScan :=
  tasks.foldlM (checkFailedTask maxFailed oldTaskIDs) s

/-- Result of `ContainerInspect` as read by the wait loop: either an error
(the health check is skipped), or a container whose `State.Health` is nil
(no healthcheck) or carries a health-status string. -/
inductive InspectResult
  | err
  | ok (health : Option String)
deriving DecidableEq

/-- Embeds the health check of part_001:413-427 for one running new task:
`newTasksHealthy` is cleared only when the container id is non-empty, the
inspect succeeds, the container defines a healthcheck, and its status is
neither `healthy` nor `starting`. -/
def checkTaskHealth (inspect : String → InspectResult) (t : Task)
    (newTasksHealthy : Bool) : Bool :=
  if t.status.containerStatus.containerID != "" then
    match inspect t.status.containerStatus.containerID with
    | InspectResult.err => newTasksHealthy
    | InspectResult.ok Option.none => newTasksHealthy
    | InspectResult.ok (Option.some healthStatus) =>
      if healthStatus != "healthy" && healthStatus != "starting" then false
      else newTasksHealthy
  else newTasksHealthy

/-- Embeds the new-task loop of part_001:399-434: a sequential scan with
the two mutable flags `hasNewRunningTasks` and `newTasksHealthy`; a new
desired-running task that is neither running nor complete clears
`hasNewRunningTasks` and `break`s out of the loop. -/
def scanNewTasks (oldTaskIDs : List String) (inspect : String → InspectResult) :
    List Task → Bool → Bool → Bool × Bool
  | [], hasNewRunningTasks, newTasksHealthy => (hasNewRunningTasks, newTasksHealthy)
  | t :: rest, hasNewRunningTasks, newTasksHealthy =>
    if oldTaskIDs.contains t.id then
      scanNewTasks oldTaskIDs inspect rest hasNewRunningTasks newTasksHealthy
    else if t.desiredState == TaskState.running then
      if t.status.state == TaskState.running then
        scanNewTasks oldTaskIDs inspect rest true
          (checkTaskHealth inspect t newTasksHealthy)
      else if t.status.state != TaskState.complete then
        (false, newTasksHealthy)
      else
        scanNewTasks oldTaskIDs inspect rest hasNewRunningTasks newTasksHealthy
    else
      scanNewTasks oldTaskIDs inspect rest hasNewRunningTasks newTasksHealthy

/-- Embeds the old-task check of part_001:387-397: `oldTasksShutdown` is
cleared when some old task is still running (the `break` only
short-circuits the scan). -/
def oldTasksShutdown (oldTaskIDs : List String) (tasks : List Task) : Bool :=
  !(tasks.any (fun t => oldTaskIDs.contains t.id &&
      t.status.state == TaskState.running))

/-- Embeds the completion decision of one poll of `waitForServiceUpdate`
(part_001:436-440): the wait returns success when the old tasks are
shutdown and the new tasks are running and healthy. -/
def updateCompletePoll (oldTaskIDs : List String)
    (inspect : String → InspectResult) (tasks : List Task) : Bool :=
  let scanned := scanNewTasks oldTaskIDs inspect tasks false true
  oldTasksShutdown oldTaskIDs tasks && scanned.1 && scanned.2

/-- One observation of the removal-wait loop of `waitForServicesRemoval`
(part_001:74-91): whether the context was already done when the `select`
ran, and whether `ServiceInspectWithRaw` still finds the service. -/
structure RemovalPollObs where
  ctxDone : Bool
  serviceFound : Bool
deriving DecidableEq

/-- Outcome of the removal-wait loop for one service. -/
inductive RemovalOutcome
  | removed
  | ctxCancelled
  | pollsExhausted
deriving DecidableEq

/-- Trace summary of the removal-wait loop: outcome, number of inspect
calls, and the total milliseconds slept between iterations. -/
structure RemovalRun where
  outcome : RemovalOutcome
  inspectCalls : Nat
  sleepMilliseconds : Nat
deriving DecidableEq

/-- Embeds the inner `for`/`select` loop of `waitForServicesRemoval`
(part_001:74-91).  When the context is done the loop returns the timeout
error.  When the inspect fails (service gone) the `break` at :84 exits the
`select` and the trailing `break` at :90 exits the `for`: success.  When
the inspect still finds the service, the `continue` at :88 re-enters the
loop immediately — the loop body contains no `time.Sleep`, so
`sleepMilliseconds` accumulates `+ 0` per iteration.  The finite
observation list models the environment; an exhausted list means the loop
is still spinning. -/
def waitForServiceRemovalLoop : List RemovalPollObs → RemovalRun
  | [] => { outcome := RemovalOutcome.pollsExhausted, inspectCalls := 0,
            sleepMilliseconds := 0 }
  | o :: rest =>
    if o.ctxDone then
      { outcome := RemovalOutcome.ctxCancelled, inspectCalls := 0,
        sleepMilliseconds := 0 }
    else if !o.serviceFound then
      { outcome := RemovalOutcome.removed, inspectCalls := 1,
        sleepMilliseconds := 0 }
    else
      let r := waitForServiceRemovalLoop rest
      { outcome := r.outcome, inspectCalls := r.inspectCalls + 1,
        sleepMilliseconds := r.sleepMilliseconds + 0 }


/-- Helper: one step of the failed-task scan leaves the state unchanged on
old, non-failed or already-seen tasks, and otherwise records the id. -/
theorem scanFailedTask_skip_old (oldTaskIDs : List String) (s : FailedScan) (t : Task)
    (h1 : t.id ∈ oldTaskIDs) : scanFailedTask oldTaskIDs s t = s := by
  simp [scanFailedTask, h1]

/-- Helper: a non-failed new task leaves the scan state unchanged. -/
theorem scanFailedTask_skip_ok (oldTaskIDs : List String) (s : FailedScan) (t : Task)
    (h2 : ¬ isFailed t = true) : scanFailedTask oldTaskIDs s t = s := by
  simp [scanFailedTask, h2]

/-- Helper: a failed new task whose id was already seen leaves the scan
state unchanged: the counter is not incremented a second time. -/
theorem scanFailedTask_skip_seen (oldTaskIDs : List String) (s : FailedScan) (t : Task)
    (h1 : t.id ∉ oldTaskIDs) (h3 : t.id ∈ s.seenFailedTasks) :
    scanFailedTask oldTaskIDs s t = s := by
  simp [scanFailedTask, h1, h3]

/-- Helper: a failed new task with an unseen id is recorded and counted. -/
theorem scanFailedTask_record (oldTaskIDs : List String) (s : FailedScan) (t : Task)
    (h1 : t.id ∉ oldTaskIDs) (h2 : isFailed t = true) (h3 : t.id ∉ s.seenFailedTasks) :
    scanFailedTask oldTaskIDs s t =
      { seenFailedTasks := t.id :: s.seenFailedTasks,
        newFailedTaskCount := s.newFailedTaskCount + 1 } := by
  simp [scanFailedTask, h1, h2, h3]

/-- Helper: the failed-task scan over a task list keeps the counter equal
to the number of distinct failed new task ids, never double-counting an
id, and its seen set is exactly the ids of failed new tasks observed. -/
theorem scanFailedTasks_invariant (oldTaskIDs : List String) (tasks : List Task)
    (s : FailedScan)
    (hlen : s.newFailedTaskCount = s.seenFailedTasks.length)
    (hnd : s.seenFailedTasks.Nodup) :
    (scanFailedTasks oldTaskIDs s tasks).newFailedTaskCount =
        (scanFailedTasks oldTaskIDs s tasks).seenFailedTasks.length ∧
    (scanFailedTasks oldTaskIDs s tasks).seenFailedTasks.Nodup ∧
    (∀ id, id ∈ (scanFailedTasks oldTaskIDs s tasks).seenFailedTasks ↔
      (id ∈ s.seenFailedTasks ∨ ∃ t, t ∈ tasks ∧ t.id = id ∧
        t.id ∉ oldTaskIDs ∧ isFailed t = true)) := by
  induction tasks generalizing s with
  | nil =>
    simp [scanFailedTasks, hlen, hnd]
  | cons t rest ih =>
    have hfold : scanFailedTasks oldTaskIDs s (t :: rest) =
        scanFailedTasks oldTaskIDs (scanFailedTask oldTaskIDs s t) rest := rfl
    have hunchanged : ∀ hs : scanFailedTask oldTaskIDs s t = s,
        (¬ (t.id ∉ oldTaskIDs ∧ isFailed t = true) ∨ t.id ∈ s.seenFailedTasks) →
        (scanFailedTasks oldTaskIDs s (t :: rest)).newFailedTaskCount =
            (scanFailedTasks oldTaskIDs s (t :: rest)).seenFailedTasks.length ∧
        (scanFailedTasks oldTaskIDs s (t :: rest)).seenFailedTasks.Nodup ∧
        (∀ id, id ∈ (scanFailedTasks oldTaskIDs s (t :: rest)).seenFailedTasks ↔
          (id ∈ s.seenFailedTasks ∨ ∃ t2, t2 ∈ t :: rest ∧ t2.id = id ∧
            t2.id ∉ oldTaskIDs ∧ isFailed t2 = true)) := by
      intro hs harm
      rw [hfold, hs]
      obtain ⟨hc1, hc2, hc3⟩ := ih s hlen hnd
      refine ⟨hc1, hc2, ?_⟩
      intro id
      rw [hc3 id]
      simp only [List.mem_cons]
      constructor
      · rintro (hid | ⟨t2, ht2, rest2⟩)
        · exact Or.inl hid
        · exact Or.inr ⟨t2, Or.inr ht2, rest2⟩
      · rintro (hid | ⟨t2, (rfl | ht2), rest2⟩)
        · exact Or.inl hid
        · rcases harm with harm | harm
          · exact absurd ⟨rest2.2.1, rest2.2.2⟩ harm
          · exact Or.inl (rest2.1 ▸ harm)
        · exact Or.inr ⟨t2, ht2, rest2⟩
    by_cases h1 : t.id ∈ oldTaskIDs
    · exact hunchanged (scanFailedTask_skip_old oldTaskIDs s t h1)
        (Or.inl (fun h => h.1 h1))
    · by_cases h2 : isFailed t = true
      · by_cases h3 : t.id ∈ s.seenFailedTasks
        · exact hunchanged (scanFailedTask_skip_seen oldTaskIDs s t h1 h3) (Or.inr h3)
        · have hs := scanFailedTask_record oldTaskIDs s t h1 h2 h3
          rw [hfold, hs]
          have hlen1 : s.newFailedTaskCount + 1 =
              (t.id :: s.seenFailedTasks).length := by
            simp [hlen]
          have hnd1 : (t.id :: s.seenFailedTasks).Nodup :=
            List.nodup_cons.mpr ⟨h3, hnd⟩
          obtain ⟨hc1, hc2, hc3⟩ := ih
            { seenFailedTasks := t.id :: s.seenFailedTasks,
              newFailedTaskCount := s.newFailedTaskCount + 1 } hlen1 hnd1
          refine ⟨hc1, hc2, ?_⟩
          intro id
          rw [hc3 id]
          simp only [List.mem_cons]
          constructor
          · rintro ((rfl | hid) | ⟨t2, ht2, rest2⟩)
            · exact Or.inr ⟨t, Or.inl rfl, rfl, h1, h2⟩
            · exact Or.inl hid
            · exact Or.inr ⟨t2, Or.inr ht2, rest2⟩
          · rintro (hid | ⟨t2, (rfl | ht2), rest2⟩)
            · exact Or.inl (Or.inr hid)
            · exact Or.inl (Or.inl rest2.1.symm)
            · exact Or.inr ⟨t2, ht2, rest2⟩
      · exact hunchanged (scanFailedTask_skip_ok oldTaskIDs s t h2)
          (Or.inl (fun h => h2 h.2))

/-- C4: a new task is classified failed exactly when its state is failed or
rejected, or shutdown with a non-empty error, or complete with desired
state shutdown; and across any sequence of polls the per-service counter
equals the number of distinct failed new task ids — an id is never counted
twice. -/
theorem failed_task_classification_and_counting :
    (∀ t : Task, isFailed t = true ↔
      (t.status.state = TaskState.failed ∨ t.status.state = TaskState.rejected ∨
       (t.status.state = TaskState.shutdown ∧ t.status.err ≠ "") ∨
       (t.status.state = TaskState.complete ∧
        t.desiredState = TaskState.shutdown))) ∧
    (∀ (oldTaskIDs : List String) (polls : List (List Task)),
      (polls.foldl (scanFailedTasks oldTaskIDs)
          { seenFailedTasks := [], newFailedTaskCount := 0 }).newFailedTaskCount =
        (polls.foldl (scanFailedTasks oldTaskIDs)
          { seenFailedTasks := [], newFailedTaskCount := 0 }).seenFailedTasks.length ∧
      (polls.foldl (scanFailedTasks oldTaskIDs)
          { seenFailedTasks := [], newFailedTaskCount := 0 }).seenFailedTasks.Nodup ∧
      (∀ id, id ∈ (polls.foldl (scanFailedTasks oldTaskIDs)
          { seenFailedTasks := [], newFailedTaskCount := 0 }).seenFailedTasks ↔
        ∃ t, t ∈ polls.flatten ∧ t.id = id ∧
          t.id ∉ oldTaskIDs ∧ isFailed t = true)) := by
  constructor
  · intro t
    simp only [isFailed, Bool.or_eq_true, Bool.and_eq_true, beq_iff_eq,
      bne_iff_ne, ne_eq]
    tauto
  · intro oldTaskIDs polls
    have hfold : polls.foldl (scanFailedTasks oldTaskIDs)
        { seenFailedTasks := [], newFailedTaskCount := 0 } =
        scanFailedTasks oldTaskIDs
          { seenFailedTasks := [], newFailedTaskCount := 0 } polls.flatten := by
      unfold scanFailedTasks
      rw [List.foldl_flatten]
    rw [hfold]
    have h := scanFailedTasks_invariant oldTaskIDs polls.flatten
      { seenFailedTasks := [], newFailedTaskCount := 0 } rfl List.nodup_nil
    refine ⟨h.1, h.2.1, ?_⟩
    intro id
    rw [h.2.2 id]
    simp

/-- C5: whenever the counter would reach the budget within a poll, the
budget-checked scan aborts with the failure error naming the count; and a
deployer constructed with a non-positive budget uses the default 3. -/
theorem failed_budget_aborts_and_default :
    (∀ (maxFailed : Int) (oldTaskIDs : List String) (s : FailedScan) (tasks : List Task),
      (s.newFailedTaskCount : Int) < maxFailed →
      ((scanFailedTasks oldTaskIDs s tasks).newFailedTaskCount : Int) ≥ maxFailed →
      ∃ n, checkFailedTasks maxFailed oldTaskIDs s tasks =
          Except.error (updateFailedMessage n) ∧ (n : Int) ≥ maxFailed) ∧
    (∀ (stackName : String) (m : Int), m ≤ 0 →
      (NewStackDeployer stackName m).maxFailedTaskCount = 3) := by
  constructor
  · intro maxFailed oldTaskIDs s tasks
    induction tasks generalizing s with
    | nil =>
      intro hlt hge
      simp only [scanFailedTasks, List.foldl_nil] at hge
      omega
    | cons t rest ih =>
      intro hlt hge
      have hscan : scanFailedTasks oldTaskIDs s (t :: rest) =
          scanFailedTasks oldTaskIDs (scanFailedTask oldTaskIDs s t) rest := rfl
      rw [hscan] at hge
      have hcheck : checkFailedTasks maxFailed oldTaskIDs s (t :: rest) =
          (checkFailedTask maxFailed oldTaskIDs s t).bind
            (fun s2 => checkFailedTasks maxFailed oldTaskIDs s2 rest) := by
        cases hc : checkFailedTask maxFailed oldTaskIDs s t <;>
          simp only [checkFailedTasks, List.foldlM_cons, hc] <;> rfl
      have hcontinue : ∀ s2, scanFailedTask oldTaskIDs s t = s2 →
          checkFailedTask maxFailed oldTaskIDs s t = Except.ok s2 →
          ((s2.newFailedTaskCount : Int) < maxFailed) →
          ∃ n, checkFailedTasks maxFailed oldTaskIDs s (t :: rest) =
              Except.error (updateFailedMessage n) ∧ (n : Int) ≥ maxFailed := by
        intro s2 hs2 hchk hlt2
        rw [hs2] at hge
        obtain ⟨n, hn, hnge⟩ := ih s2 hlt2 hge
        refine ⟨n, ?_, hnge⟩
        rw [hcheck, hchk]
        exact hn
      by_cases h1 : t.id ∈ oldTaskIDs
      · exact hcontinue s (scanFailedTask_skip_old oldTaskIDs s t h1)
          (by simp [checkFailedTask, h1]) hlt
      · by_cases h2 : isFailed t = true
        · by_cases h3 : t.id ∈ s.seenFailedTasks
          · refine hcontinue s (scanFailedTask_skip_seen oldTaskIDs s t h1 h3) ?_ hlt
            have hnb : ¬ ((s.newFailedTaskCount : Int) ≥ maxFailed) := not_le.mpr hlt
            simp [checkFailedTask, h1, h2, h3, hnb]
          · by_cases hbudget :
                maxFailed ≤ (s.newFailedTaskCount : Int) + 1
            · refine ⟨s.newFailedTaskCount + 1, ?_, by push_cast; omega⟩
              rw [hcheck]
              have hchk : checkFailedTask maxFailed oldTaskIDs s t =
                  Except.error (updateFailedMessage (s.newFailedTaskCount + 1)) := by
                simp [checkFailedTask, h1, h2, h3, hbudget]
              rw [hchk]
              rfl
            · have hlt2 : (((s.newFailedTaskCount + 1 : Nat) : Int)) < maxFailed := by
                push_cast
                omega
              refine hcontinue
                { seenFailedTasks := t.id :: s.seenFailedTasks,
                  newFailedTaskCount := s.newFailedTaskCount + 1 }
                (scanFailedTask_record oldTaskIDs s t h1 h2 h3) ?_
                (by simpa using hlt2)
              simp [checkFailedTask, h1, h2, h3, hbudget]
        · exact hcontinue s (scanFailedTask_skip_ok oldTaskIDs s t h2)
            (by simp [checkFailedTask, h1, h2]) hlt
  · intro stackName m hm
    simp [NewStackDeployer, hm]

/-- A concrete failed task for the C5 witness. -/
def c5FailedTask (i : String) : Task :=
  { id := i, desiredState := TaskState.shutdown,
    status := { state := TaskState.failed, err := "task: non-zero exit (1)",
                containerStatus := { containerID := "", exitCode := 1 } } }

/-- C5 witness: three distinct failed new tasks against the default budget
3 abort the scan with the failure error, and a deployer built with budget 0
uses 3. -/
theorem failed_budget_aborts_and_default_witness :
    (∃ n, checkFailedTasks 3 []
        { seenFailedTasks := [], newFailedTaskCount := 0 }
        [c5FailedTask "a", c5FailedTask "b", c5FailedTask "c"] =
        Except.error (updateFailedMessage n) ∧ (n : Int) ≥ 3) ∧
    (NewStackDeployer "demo" 0).maxFailedTaskCount = 3 :=
  ⟨failed_budget_aborts_and_default.1 3 []
      { seenFailedTasks := [], newFailedTaskCount := 0 }
      [c5FailedTask "a", c5FailedTask "b", c5FailedTask "c"]
      (by decide) (by decide),
   failed_budget_aborts_and_default.2 "demo" 0 (by decide)⟩

/-- Derived predicate used to characterise the health gate: a task passes
the container health gate when its container id is empty, the inspect
fails, the container has no healthcheck, or the health status is
`healthy` or `starting`. -/
def healthAcceptable (inspect : String → InspectResult) (t : Task) : Bool :=
  if t.status.containerStatus.containerID != "" then
    match inspect t.status.containerStatus.containerID with
    | InspectResult.err => true
    | InspectResult.ok Option.none => true
    | InspectResult.ok (Option.some healthStatus) =>
      healthStatus == "healthy" || healthStatus == "starting"
  else true

/-- Derived predicate: the task is new (id not in the pre-update set),
desired running and observed running. -/
def isNewRunningTask (oldTaskIDs : List String) (t : Task) : Bool :=
  !(oldTaskIDs.contains t.id) && t.desiredState == TaskState.running &&
    t.status.state == TaskState.running

/-- Derived predicate: the task is new, desired running and neither
running nor complete — the case that `break`s the new-task loop. -/
def isNewBlockedTask (oldTaskIDs : List String) (t : Task) : Bool :=
  !(oldTaskIDs.contains t.id) && t.desiredState == TaskState.running &&
    !(t.status.state == TaskState.running) &&
    !(t.status.state == TaskState.complete)

/-- Helper: the source's health update equals conjunction with the
acceptability predicate. -/
theorem checkTaskHealth_eq (inspect : String → InspectResult) (t : Task) (b : Bool) :
    checkTaskHealth inspect t b = (b && healthAcceptable inspect t) := by
  unfold checkTaskHealth healthAcceptable
  by_cases hcid : (t.status.containerStatus.containerID != "") = true
  · simp only [hcid, if_true]
    cases inspect t.status.containerStatus.containerID with
    | err => simp
    | ok health =>
      cases health with
      | none => simp
      | some healthStatus =>
        by_cases hh : (healthStatus != "healthy" && healthStatus != "starting") = true
        · have : (healthStatus == "healthy" || healthStatus == "starting") = false := by
            simp only [Bool.and_eq_true, bne_iff_ne, ne_eq] at hh
            simp [hh.1, hh.2]
          simp [hh, this]
        · have hor : (healthStatus == "healthy" || healthStatus == "starting") = true := by
            simp only [Bool.and_eq_true, bne_iff_ne, ne_eq, not_and, not_not] at hh
            by_cases h1 : healthStatus = "healthy"
            · simp [h1]
            · simp [hh h1]
          simp only [Bool.not_eq_true] at hh
          simp [hh, hor]
  · simp only [Bool.not_eq_true] at hcid
    simp [hcid]

/-- Helper: the sequential new-task scan of `waitForServiceUpdate`,
including its early `break`, computes — as the conjunction of its two
flags — exactly: no new desired-running task is blocked, some new running
task exists (or the flag was already set), the health flag holds, and
every new running task passes the health gate. -/
theorem scanNewTasks_spec (oldTaskIDs : List String) (inspect : String → InspectResult)
    (ts : List Task) (a b : Bool) :
    ((scanNewTasks oldTaskIDs inspect ts a b).1 &&
     (scanNewTasks oldTaskIDs inspect ts a b).2) =
      (ts.all (fun t => !(isNewBlockedTask oldTaskIDs t)) &&
       (a || ts.any (fun t => isNewRunningTask oldTaskIDs t)) &&
       b &&
       ts.all (fun t => !(isNewRunningTask oldTaskIDs t) ||
         healthAcceptable inspect t)) := by
  induction ts generalizing a b with
  | nil =>
    simp [scanNewTasks]
  | cons t rest ih =>
    by_cases h1 : t.id ∈ oldTaskIDs
    · have hscan : scanNewTasks oldTaskIDs inspect (t :: rest) a b =
          scanNewTasks oldTaskIDs inspect rest a b := by
        simp [scanNewTasks, h1]
      rw [hscan, ih]
      have hblock : isNewBlockedTask oldTaskIDs t = false := by
        simp [isNewBlockedTask, h1]
      have hrun : isNewRunningTask oldTaskIDs t = false := by
        simp [isNewRunningTask, h1]
      simp [hblock, hrun]
    · by_cases h2 : t.desiredState = TaskState.running
      · by_cases h3 : t.status.state = TaskState.running
        · have hscan : scanNewTasks oldTaskIDs inspect (t :: rest) a b =
              scanNewTasks oldTaskIDs inspect rest true
                (checkTaskHealth inspect t b) := by
            simp [scanNewTasks, h1, h2, h3]
          rw [hscan, ih]
          have hblock : isNewBlockedTask oldTaskIDs t = false := by
            simp [isNewBlockedTask, h3]
          have hrun : isNewRunningTask oldTaskIDs t = true := by
            simp [isNewRunningTask, h1, h2, h3]
          rw [checkTaskHealth_eq]
          simp only [hblock, hrun, Bool.not_false, Bool.true_and, Bool.or_true,
            Bool.true_or, Bool.not_true, Bool.false_or, List.all_cons, List.any_cons]
          cases b <;> cases healthAcceptable inspect t <;> simp
        · by_cases h4 : t.status.state = TaskState.complete
          · have hscan : scanNewTasks oldTaskIDs inspect (t :: rest) a b =
                scanNewTasks oldTaskIDs inspect rest a b := by
              simp [scanNewTasks, h1, h2, h3, h4]
            rw [hscan, ih]
            have hblock : isNewBlockedTask oldTaskIDs t = false := by
              simp [isNewBlockedTask, h4]
            have hrun : isNewRunningTask oldTaskIDs t = false := by
              simp [isNewRunningTask, h3]
            simp [hblock, hrun]
          · have hscan : scanNewTasks oldTaskIDs inspect (t :: rest) a b =
                (false, b) := by
              simp [scanNewTasks, h1, h2, h3, h4]
            rw [hscan]
            have hblock : isNewBlockedTask oldTaskIDs t = true := by
              simp [isNewBlockedTask, h1, h2, h3, h4]
            simp [hblock]
      · have hscan : scanNewTasks oldTaskIDs inspect (t :: rest) a b =
            scanNewTasks oldTaskIDs inspect rest a b := by
          simp [scanNewTasks, h1, h2]
        rw [hscan, ih]
        have hblock : isNewBlockedTask oldTaskIDs t = false := by
          simp [isNewBlockedTask, h2]
        have hrun : isNewRunningTask oldTaskIDs t = false := by
          simp [isNewRunningTask, h2]
        simp [hblock, hrun]

/-- Helper: the old-task gate holds exactly when no old task is still
running. -/
theorem oldTasksShutdown_iff (oldTaskIDs : List String) (tasks : List Task) :
    oldTasksShutdown oldTaskIDs tasks = true ↔
      ∀ t ∈ tasks, t.id ∈ oldTaskIDs → t.status.state ≠ TaskState.running := by
  simp [oldTasksShutdown, List.any_eq_true]

/-- Helper: element form of the blocked-task check. -/
theorem not_blocked_element_iff (oldTaskIDs : List String) (t : Task) :
    (!(isNewBlockedTask oldTaskIDs t)) = true ↔
      (t.id ∉ oldTaskIDs → t.desiredState = TaskState.running →
        t.status.state = TaskState.running ∨
          t.status.state = TaskState.complete) := by
  simp [isNewBlockedTask]
  tauto

/-- Helper: element form of the new-running-task check. -/
theorem isNewRunningTask_iff (oldTaskIDs : List String) (t : Task) :
    isNewRunningTask oldTaskIDs t = true ↔
      (t.id ∉ oldTaskIDs ∧ t.desiredState = TaskState.running ∧
        t.status.state = TaskState.running) := by
  simp [isNewRunningTask, and_assoc]

/-- Helper: element form of the health gate. -/
theorem health_element_iff (oldTaskIDs : List String)
    (inspect : String → InspectResult) (t : Task) :
    (!(isNewRunningTask oldTaskIDs t) || healthAcceptable inspect t) = true ↔
      (t.id ∉ oldTaskIDs → t.desiredState = TaskState.running →
        t.status.state = TaskState.running →
        healthAcceptable inspect t = true) := by
  simp [isNewRunningTask]
  tauto

/-- C2 (amended): one poll of `waitForServiceUpdate` declares the update
complete exactly when no old task is still running, every new
desired-running task is running or complete, at least one new
desired-running task is running, and every new running task passes the
container health gate — where a defined healthcheck passes with status
`healthy` OR `starting` (the code accepts `starting` as success rather
than merely tolerating it while polling), and a container without a
healthcheck (or an unreachable container) passes with observed state
running alone. -/
theorem verifying_phase_characterised (oldTaskIDs : List String)
    (inspect : String → InspectResult) (tasks : List Task) :
    updateCompletePoll oldTaskIDs inspect tasks = true ↔
      ((∀ t ∈ tasks, t.id ∈ oldTaskIDs → t.status.state ≠ TaskState.running) ∧
       (∀ t ∈ tasks, t.id ∉ oldTaskIDs → t.desiredState = TaskState.running →
          t.status.state = TaskState.running ∨
            t.status.state = TaskState.complete) ∧
       (∃ t ∈ tasks, t.id ∉ oldTaskIDs ∧ t.desiredState = TaskState.running ∧
          t.status.state = TaskState.running) ∧
       (∀ t ∈ tasks, t.id ∉ oldTaskIDs → t.desiredState = TaskState.running →
          t.status.state = TaskState.running →
          healthAcceptable inspect t = true)) := by
  unfold updateCompletePoll
  rw [Bool.and_assoc, scanNewTasks_spec]
  simp only [Bool.false_or, Bool.and_true, Bool.and_eq_true, List.all_eq_true,
    List.any_eq_true, oldTasksShutdown_iff, not_blocked_element_iff,
    isNewRunningTask_iff, health_element_iff]
  tauto

/-- Concrete inspect function for the C2 counterexample: container `c1`
defines a healthcheck whose status is `starting`. -/
def c2Inspect : String → InspectResult := fun cid =>
  if cid = "c1" then InspectResult.ok (Option.some "starting")
  else InspectResult.err

/-- Concrete new task for the C2 counterexample: desired running, observed
running, backed by container `c1`. -/
def c2Task : Task :=
  { id := "t1", desiredState := TaskState.running,
    status := { state := TaskState.running, err := "",
                containerStatus := { containerID := "c1", exitCode := 0 } } }

/-- C2 counterexample: a new running task whose container defines a
healthcheck reporting `starting` — not `healthy` — yet the poll declares
the service update complete: the wait succeeds instead of continuing to
poll. -/
theorem verifying_succeeds_on_starting :
    c2Inspect "c1" = InspectResult.ok (Option.some "starting") ∧
    "starting" ≠ "healthy" ∧
    updateCompletePoll [] c2Inspect [c2Task] = true := by
  refine ⟨by decide, by decide, by decide⟩

/-- C2 witness: `verifying_phase_characterised` instantiated at a
single-task poll whose container has no healthcheck. -/
def c2PlainInspect : String → InspectResult := fun _ =>
  InspectResult.ok Option.none

/-- Concrete new running task without a healthcheck (C2 witness data). -/
def c2PlainTask : Task :=
  { id := "t2", desiredState := TaskState.running,
    status := { state := TaskState.running, err := "",
                containerStatus := { containerID := "c2", exitCode := 0 } } }

/-- C2 witness: the amended characterisation applied to a concrete poll. -/
theorem verifying_phase_characterised_witness :
    updateCompletePoll [] c2PlainInspect [c2PlainTask] = true :=
  (verifying_phase_characterised [] c2PlainInspect [c2PlainTask]).mpr
    (by refine ⟨by decide, by decide, ⟨c2PlainTask, by decide, by decide⟩, by decide⟩)

/-- C6 (code bug): the removal-wait loop never sleeps between inspect
polls — the `continue` in the `select` default branch re-enters the loop
immediately — so a service that is still present is re-inspected with 0 ms
between polls (the claim requires at least 500 ms); termination on
"not found" and the context-cancellation error do work as claimed. -/
theorem removal_wait_busy_spins :
    (∀ obs : List RemovalPollObs,
      (waitForServiceRemovalLoop obs).sleepMilliseconds = 0) ∧
    waitForServiceRemovalLoop
        [{ ctxDone := false, serviceFound := true },
         { ctxDone := false, serviceFound := true },
         { ctxDone := false, serviceFound := false }] =
      { outcome := RemovalOutcome.removed, inspectCalls := 3,
        sleepMilliseconds := 0 } ∧
    waitForServiceRemovalLoop [{ ctxDone := true, serviceFound := true }] =
      { outcome := RemovalOutcome.ctxCancelled, inspectCalls := 0,
        sleepMilliseconds := 0 } := by
  refine ⟨?_, by decide, by decide⟩
  intro obs
  induction obs with
  | nil => rfl
  | cons o rest ih =>
    obtain ⟨c, f⟩ := o
    cases c <;> cases f <;> simp [waitForServiceRemovalLoop, ih]

end Deployer

namespace SwarmState

/-- Embeds the service-keying of `GetCurrentState`
(internal/swarm/state.go:39-46).  Go byte strings are modelled as char
lists: `serviceName[:n]` is `take n` and `serviceName[n:]` is `drop n`.
The guard checks only that the name is longer than `len(stackName)+1` and
that its first `len(stackName)` characters equal the stack name — the
separator character is not inspected.  The same pattern is repeated for
networks (state.go:59-64) and volumes (state.go:100-105). -/
def currentStateServiceKey (stackName name : List Char) : List Char :=
  if stackName.length + 1 < name.length ∧
      name.take stackName.length = stackName then
    name.drop (stackName.length + 1)
  else name

/-- C10: the state reader keys a listed service by dropping exactly the
first `len(stackName)+1` characters whenever the name is longer than
`len(stackName)+1` and starts with the stack name — regardless of the
separator character, as the third conjunct shows for an arbitrary
separator — and otherwise keys it by the full, unstripped name. -/
theorem service_key_strips_without_separator_check
    (stackName name rest : List Char) (c : Char) :
    (stackName.length + 1 < name.length →
      name.take stackName.length = stackName →
      currentStateServiceKey stackName name =
        name.drop (stackName.length + 1)) ∧
    (¬ (stackName.length + 1 < name.length ∧
        name.take stackName.length = stackName) →
      currentStateServiceKey stackName name = name) ∧
    (rest ≠ [] →
      currentStateServiceKey stackName (stackName ++ c :: rest) = rest) := by
  refine ⟨?_, ?_, ?_⟩
  · intro h1 h2
    simp [currentStateServiceKey, h1, h2]
  · intro h
    simp only [currentStateServiceKey]
    rw [if_neg h]
  · intro hrest
    have hpos : 0 < rest.length := List.length_pos.mpr hrest
    have hlen : stackName.length + 1 < (stackName ++ c :: rest).length := by
      simp only [List.length_append, List.length_cons]
      omega
    have htake : (stackName ++ c :: rest).take stackName.length = stackName :=
      List.take_left stackName (c :: rest)
    have hdrop : (stackName ++ c :: rest).drop (stackName.length + 1) = rest := by
      rw [List.append_cons]
      refine List.drop_left' ?_
      simp
    simp [currentStateServiceKey, hlen, htake, hdrop, hrest]

/-- C10 witness: the keying applied to a name whose separator is `X`
rather than an underscore (stripped anyway), and to a name that does not
start with the stack name (kept whole). -/
theorem service_key_strips_witness :
    currentStateServiceKey "mystack".toList
        ("mystack".toList ++ 'X' :: "api".toList) = "api".toList ∧
    currentStateServiceKey "mystack".toList "other".toList = "other".toList :=
  ⟨(service_key_strips_without_separator_check "mystack".toList []
      "api".toList 'X').2.2 (by decide),
   (service_key_strips_without_separator_check "mystack".toList
      "other".toList [] 'X').2.1 (by decide)⟩

end SwarmState

end StackWait
